import Mathlib

/-!
# Google Compute builder: step planning and result extraction

A shallow embedding of `builder/googlecompute/builder.go`
(`Builder.Run` and `Builder.Cancel`).

Conventions of the embedding.

* Go pointers and interface handles are modelled by plain values; a pointer
  or interface that may be `nil` is an `Option`.
* The collaborators that `builder.go` only calls (`NewDriverGCE`,
  `common.NewRunner`, the runner's `Run`, the constant `StartupScriptKey`)
  are fields of `Env`; every theorem quantifies over them.
* Effects (`state.Put`, runner calls, log lines) are recorded in an ordered
  trace of `Event`s next to the returned values.
* A failed type assertion or a nil dereference is the explicit outcome
  `Outcome.panicked`.
-/

namespace Googlecompute

/-! ## Data model -/

/-- The `packer.Ui` handle passed to `Run`. -/
structure Ui where
  id : Nat
  deriving DecidableEq, Repr

/-- The `packer.Hook` handle passed to `Run`. -/
structure Hook where
  id : Nat
  deriving DecidableEq, Repr

/-- The `packer.Cache` handle passed to `Run` (unused by the body). -/
structure Cache where
  id : Nat
  deriving DecidableEq, Repr

/-- A non-nil Go `error` value. -/
structure Error where
  msg : String
  deriving DecidableEq, Repr

/-- The `Driver` handle returned by `NewDriverGCE`. -/
structure Driver where
  id : Nat
  deriving DecidableEq, Repr

/-- The target of an `*Image` pointer. -/
structure Image where
  name : String
  deriving DecidableEq, Repr

/-- The account value `b.config.Account` handed to `NewDriverGCE`. -/
structure AccountFile where
  clientEmail : String
  deriving DecidableEq, Repr

/-- The fields of `communicator.Config` that `Run` reads. -/
structure CommConfig where
  SSHPrivateKey : String
  deriving DecidableEq, Repr

/-- The fields of the embedded `common.PackerConfig` that `Run` reads. -/
structure PackerConfig where
  PackerBuildName : String
  PackerDebug : Bool
  deriving DecidableEq, Repr

/-- The fields of `Config` that `Run` reads.  `Metadata` is the Go
`map[string]string`, kept as an association list. -/
structure Config where
  PackerConfig : PackerConfig
  PackerDryRun : Bool
  Comm : CommConfig
  ProjectId : String
  Account : AccountFile
  Metadata : List (String × String)
  StartupScriptFile : String
  deriving DecidableEq, Repr

/-- The three package-level callbacks wired into `communicator.StepConnect`. -/
inductive Callback
  | commHost
  | sshConfig
  | winrmConfig
  deriving DecidableEq, Repr

/-- The step values that `Run` can place in its list, with the fields it sets. -/
inductive Step
  | StepCheckExistingImage
  | StepCreateSSHKey (Debug : Bool) (DebugKeyPath : String) (PrivateKeyFile : String)
  | StepCreateInstance (Debug : Bool)
  | StepCreateWindowsPassword (Debug : Bool) (DebugKeyPath : String)
  | StepInstanceInfo (Debug : Bool)
  | StepConnect (Config : CommConfig) (Host SSHConfig WinRMConfig : Callback)
  | StepProvision
  | StepTeardownInstance
  | StepCreateImage
  | StepWaitStartupScript
  deriving DecidableEq, Repr

/-- The Go type of a step, forgetting its field values. -/
inductive StepKind
  | CheckExistingImage
  | CreateSSHKey
  | CreateInstance
  | CreateWindowsPassword
  | InstanceInfo
  | Connect
  | Provision
  | TeardownInstance
  | CreateImage
  | WaitStartupScript
  deriving DecidableEq, Repr

/-- The kind of a step. -/
def Step.kind : Step → StepKind
  | .StepCheckExistingImage => .CheckExistingImage
  | .StepCreateSSHKey _ _ _ => .CreateSSHKey
  | .StepCreateInstance _ => .CreateInstance
  | .StepCreateWindowsPassword _ _ => .CreateWindowsPassword
  | .StepInstanceInfo _ => .InstanceInfo
  | .StepConnect _ _ _ _ => .Connect
  | .StepProvision => .Provision
  | .StepTeardownInstance => .TeardownInstance
  | .StepCreateImage => .CreateImage
  | .StepWaitStartupScript => .WaitStartupScript

/-- The `multistep.Runner` object returned by `common.NewRunner`. -/
structure Runner where
  id : Nat
  deriving DecidableEq, Repr

/-- An `interface{}` value stored in the state bag.  `nil` is the nil
interface, `error` a value whose dynamic type implements `error`, `image`
a value of dynamic type `*Image` (the pointer itself may be nil), and
`other` any value of another dynamic type. -/
inductive Value
  | nil
  | config (c : Config)
  | driver (d : Driver)
  | hook (h : Hook)
  | ui (u : Ui)
  | error (e : Error)
  | image (p : Option Image)
  | other (tag : String)
  deriving DecidableEq, Repr

/-- The contents of a `multistep.BasicStateBag`: the most recent binding of a
key comes first. -/
abbrev StateBag := List (String × Value)

/-- The bag made by `new(multistep.BasicStateBag)`. -/
def StateBag.new : StateBag := []

/-- The bag after `state.Put(k, v)`: `data[k] = v`. -/
def StateBag.Put (s : StateBag) (k : String) (v : Value) : StateBag :=
  (k, v) :: s.filter (fun kv => kv.1 != k)

/-- The pair returned by `state.GetOk(k)`: `none` when the key is absent. -/
def StateBag.GetOk (s : StateBag) (k : String) : Option Value :=
  s.lookup k

/-- The value returned by `state.Get(k)`: the nil interface when the key is absent. -/
def StateBag.Get (s : StateBag) (k : String) : Value :=
  (s.GetOk k).getD Value.nil

/-- The `Artifact` struct built at the end of a successful run. -/
structure Artifact where
  image : Option Image
  driver : Driver
  config : Config
  deriving DecidableEq, Repr

/-- The `Builder` struct: `config` is the `*Config` pointer (nil before
`Prepare`), `runner` the `multistep.Runner` interface field (nil until
`Run` creates one). -/
structure Builder where
  config : Option Config
  runner : Option Runner
  deriving DecidableEq, Repr

/-- The collaborators `builder.go` calls but does not define. -/
structure Env where
  /-- The constant `StartupScriptKey`. -/
  StartupScriptKey : String
  /-- The pair `(driver, err)` returned by `NewDriverGCE(ui, projectId, &account)`. -/
  NewDriverGCE : Ui → String → AccountFile → Driver × Option Error
  /-- The runner object returned by `common.NewRunner(steps, packerConfig, ui)`. -/
  NewRunner : List Step → PackerConfig → Ui → Runner
  /-- The contents of the state bag once `runner.Run(state)` has come back. -/
  RunnerRun : Runner → StateBag → StateBag

/-- An observable effect of `Run` or `Cancel`, in program order. -/
inductive Event
  | NewDriverGCE (ui : Ui) (projectId : String) (account : AccountFile)
  | NewStateBag
  | Put (k : String) (v : Value)
  | NewRunner (steps : List Step) (config : PackerConfig) (ui : Ui)
  | RunnerRun (r : Runner)
  | RunnerCancel (r : Runner)
  | Log (msg : String)
  deriving DecidableEq, Repr

/-- How a call of `Run` ends: it returns the pair `(artifact, err)`, each
`none` when nil, or it panics. -/
inductive Outcome
  | returned (artifact : Option Artifact) (err : Option Error)
  | panicked (msg : String)
  deriving DecidableEq, Repr

/-- Everything a call of `Run` leaves behind: its outcome, the builder's
fields afterwards, and the effects it performed. -/
structure RunResult where
  ret : Outcome
  builder : Builder
  trace : List Event
  deriving DecidableEq, Repr

/-! ## The step list (builder.go lines 52 to 86) -/

/-- The slice literal of lines 52 to 77. -/
def Builder.Run.stepsLiteral (config : Config) : List Step :=
  [ Step.StepCheckExistingImage,
    Step.StepCreateSSHKey config.PackerConfig.PackerDebug
      ("gce_" ++ config.PackerConfig.PackerBuildName ++ ".pem")
      config.Comm.SSHPrivateKey,
    Step.StepCreateInstance config.PackerConfig.PackerDebug,
    Step.StepCreateWindowsPassword config.PackerConfig.PackerDebug
      ("gce_windows_" ++ config.PackerConfig.PackerBuildName ++ ".pem"),
    Step.StepInstanceInfo config.PackerConfig.PackerDebug,
    Step.StepConnect config.Comm Callback.commHost Callback.sshConfig Callback.winrmConfig,
    Step.StepProvision,
    Step.StepTeardownInstance ]

/-- The condition of line 83: the metadata map has the startup-script key,
or the startup-script file path is not empty. -/
def Builder.Run.startupScriptDeclared (StartupScriptKey : String) (config : Config) : Bool :=
  (config.Metadata.lookup StartupScriptKey).isSome || config.StartupScriptFile != ""

/-- The value of the local variable `steps` when line 89 hands it to
`common.NewRunner`. -/
def Builder.Run.steps (StartupScriptKey : String) (config : Config) : List Step :=
  let steps := Builder.Run.stepsLiteral config
  let steps := if !config.PackerDryRun then steps ++ [Step.StepCreateImage] else steps
  let steps :=
    if Builder.Run.startupScriptDeclared StartupScriptKey config then
      steps ++ [Step.StepWaitStartupScript]
    else steps
  steps ++ [Step.StepTeardownInstance, Step.StepCreateImage]

/-! ## Run and Cancel -/

/-- The state bag after the four `Put` calls of lines 45 to 49. -/
def Builder.Run.seededState (config : Config) (driver : Driver) (hook : Hook) (ui : Ui) :
    StateBag :=
  (((StateBag.new.Put "config" (Value.config config)).Put "driver" (Value.driver driver)).Put
    "hook" (Value.hook hook)).Put "ui" (Value.ui ui)

/-- The effects of lines 38 to 90 in program order, for a run that gets past
driver construction. -/
def Builder.Run.runTrace (config : Config) (driver : Driver) (hook : Hook) (ui : Ui)
    (steps : List Step) (runner : Runner) : List Event :=
  [ Event.NewDriverGCE ui config.ProjectId config.Account,
    Event.NewStateBag,
    Event.Put "config" (Value.config config),
    Event.Put "driver" (Value.driver driver),
    Event.Put "hook" (Value.hook hook),
    Event.Put "ui" (Value.ui ui),
    Event.NewRunner steps config.PackerConfig ui,
    Event.RunnerRun runner ]

/-- The method `Builder.Run` (lines 37 to 107). -/
def Builder.Run (env : Env) (b : Builder) (ui : Ui) (hook : Hook) (_cache : Cache) : RunResult :=
  match b.config with
  | none => ⟨Outcome.panicked "invalid memory address or nil pointer dereference", b, []⟩
  | some config =>
    let driver := (env.NewDriverGCE ui config.ProjectId config.Account).1
    let err := (env.NewDriverGCE ui config.ProjectId config.Account).2
    match err with
    | some e =>
      ⟨Outcome.returned none (some e), b,
        [Event.NewDriverGCE ui config.ProjectId config.Account]⟩
    | none =>
      -- Set up the state.
      let state := Builder.Run.seededState config driver hook ui
      -- Build the steps.
      let steps := Builder.Run.steps env.StartupScriptKey config
      -- Run the steps.
      let runner := env.NewRunner steps config.PackerConfig ui
      let b1 : Builder := { b with runner := some runner }
      let state := env.RunnerRun runner state
      let trace := Builder.Run.runTrace config driver hook ui steps runner
      -- Report any errors.
      match state.GetOk "error" with
      | some rawErr =>
        match rawErr with
        | Value.error e => ⟨Outcome.returned none (some e), b1, trace⟩
        | _ => ⟨Outcome.panicked "interface conversion: not an error", b1, trace⟩
      | none =>
        match state.GetOk "image" with
        | none =>
          ⟨Outcome.returned none none, b1,
            trace ++ [Event.Log "Failed to find image in state. Bug?"]⟩
        | some _ =>
          match state.Get "image" with
          | Value.image p =>
            ⟨Outcome.returned (some { image := p, driver := driver, config := config }) none,
              b1, trace⟩
          | _ => ⟨Outcome.panicked "interface conversion: not *Image", b1, trace⟩

/-- The method `Builder.Cancel` (lines 110 to 115): the builder afterwards
and the effects performed. -/
def Builder.Cancel (b : Builder) : Builder × List Event :=
  match b.runner with
  | some runner =>
    (b, [Event.Log "Cancelling the step runner...", Event.RunnerCancel runner])
  | none => (b, [])

/-! ## Auxiliary definitions used to state the properties -/

/-- The state bag that `Run` inspects at line 93: the seeded bag after the
runner built at line 89 has run on it. -/
def Builder.Run.finalState (env : Env) (config : Config) (ui : Ui) (hook : Hook) : StateBag :=
  env.RunnerRun
    (env.NewRunner (Builder.Run.steps env.StartupScriptKey config) config.PackerConfig ui)
    (Builder.Run.seededState config (env.NewDriverGCE ui config.ProjectId config.Account).1
      hook ui)

/-- The plan as the specification words it: the eight fixed steps, then one
image-capture step when dry-run is off, then one wait-for-startup-script
step when a startup script is declared, and nothing else. -/
def referencePlan (StartupScriptKey : String) (config : Config) : List Step :=
  Builder.Run.stepsLiteral config
    ++ (if config.PackerDryRun then [] else [Step.StepCreateImage])
    ++ (if Builder.Run.startupScriptDeclared StartupScriptKey config then
          [Step.StepWaitStartupScript] else [])

/-- The key-to-type agreement on the two entries `Run` reads back: an
"error" entry holds an error value and, when there is no "error" entry, an
"image" entry holds an image pointer. -/
def entriesWellTyped (s : StateBag) : Bool :=
  match s.GetOk "error" with
  | some (Value.error _) => true
  | some _ => false
  | none =>
    match s.GetOk "image" with
    | some (Value.image _) => true
    | some _ => false
    | none => true

/-- Exactly one of the returned artifact and the returned error is non-nil. -/
def Outcome.exactlyOneNonNil : Outcome → Bool
  | Outcome.returned artifact err => xor artifact.isSome err.isSome
  | Outcome.panicked _ => false

/-! ## Concrete inputs -/

/-- A configuration with dry-run on and no startup script. -/
def cfgDryRun : Config :=
  { PackerConfig := { PackerBuildName := "web", PackerDebug := false },
    PackerDryRun := true,
    Comm := { SSHPrivateKey := "" },
    ProjectId := "proj",
    Account := { clientEmail := "svc@proj" },
    Metadata := [],
    StartupScriptFile := "" }

/-- A configuration with dry-run off and a startup-script file. -/
def cfgImageScript : Config :=
  { cfgDryRun with PackerDryRun := false, StartupScriptFile := "startup.sh" }

/-- An environment whose driver constructor returns `drv` and whose runner
replaces the state bag by `post`. -/
def envConst (drv : Driver × Option Error) (post : StateBag) : Env :=
  { StartupScriptKey := "startup-script",
    NewDriverGCE := fun _ _ _ => drv,
    NewRunner := fun _ _ _ => { id := 7 },
    RunnerRun := fun _ _ => post }

/-- An environment whose driver constructor succeeds and whose runner leaves
the seeded state bag as it is. -/
def envIdle : Env :=
  { StartupScriptKey := "startup-script",
    NewDriverGCE := fun _ _ _ => ({ id := 1 }, none),
    NewRunner := fun _ _ _ => { id := 7 },
    RunnerRun := fun _ s => s }

/-! ## Shared lemmas -/

/-- The step list is the reference plan with a second teardown step and a
second image-capture step appended by line 86. -/
theorem steps_eq_referencePlan_append (key : String) (c : Config) :
    Builder.Run.steps key c
      = referencePlan key c ++ [Step.StepTeardownInstance, Step.StepCreateImage] := by
  unfold Builder.Run.steps referencePlan
  cases c.PackerDryRun <;> cases Builder.Run.startupScriptDeclared key c <;> simp

/-- The eight fixed steps have eight distinct kinds. -/
theorem stepsLiteral_kinds (c : Config) :
    (Builder.Run.stepsLiteral c).map Step.kind
      = [StepKind.CheckExistingImage, StepKind.CreateSSHKey, StepKind.CreateInstance,
         StepKind.CreateWindowsPassword, StepKind.InstanceInfo, StepKind.Connect,
         StepKind.Provision, StepKind.TeardownInstance] := rfl

/-- The kinds of the step list, by the two flags. -/
theorem steps_kinds (key : String) (c : Config) :
    (Builder.Run.steps key c).map Step.kind
      = [StepKind.CheckExistingImage, StepKind.CreateSSHKey, StepKind.CreateInstance,
         StepKind.CreateWindowsPassword, StepKind.InstanceInfo, StepKind.Connect,
         StepKind.Provision, StepKind.TeardownInstance]
        ++ (if c.PackerDryRun then [] else [StepKind.CreateImage])
        ++ (if Builder.Run.startupScriptDeclared key c then
              [StepKind.WaitStartupScript] else [])
        ++ [StepKind.TeardownInstance, StepKind.CreateImage] := by
  rw [steps_eq_referencePlan_append]
  unfold referencePlan
  cases c.PackerDryRun <;> cases Builder.Run.startupScriptDeclared key c <;>
    simp [stepsLiteral_kinds, Step.kind]

/-- The type assertion of line 94: an "error" entry whose value is not an
error value makes `Run` panic after the runner has run. -/
theorem Run_error_entry_of_other_type (env : Env) (c : Config) (r : Option Runner)
    (ui : Ui) (hook : Hook) (cache : Cache) (v : Value)
    (hdriver : (env.NewDriverGCE ui c.ProjectId c.Account).2 = none)
    (herror : (Builder.Run.finalState env c ui hook).GetOk "error" = some v)
    (hv : ∀ (e : Error), v ≠ Value.error e) :
    (Builder.Run env { config := some c, runner := r } ui hook cache).ret
      = Outcome.panicked "interface conversion: not an error" := by
  unfold Builder.Run.finalState at herror
  cases v <;> first
    | exact absurd rfl (hv _)
    | simp only [Builder.Run, hdriver, herror]

/-! ## The step list -/

/-- C1 (code defect).  With dry-run on and no startup script the list still
holds an image-capture step and has ten steps, not eight: at the input
`cfgDryRun` the list is the eight fixed steps followed by a second teardown
and an image capture; and for every configuration, dry-run or not, the list
ends in an image-capture step. -/
theorem C1_dry_run_list_holds_image_capture :
    cfgDryRun.PackerDryRun = true
    ∧ Builder.Run.startupScriptDeclared "startup-script" cfgDryRun = false
    ∧ Builder.Run.steps "startup-script" cfgDryRun
        = [ Step.StepCheckExistingImage,
            Step.StepCreateSSHKey false "gce_web.pem" "",
            Step.StepCreateInstance false,
            Step.StepCreateWindowsPassword false "gce_windows_web.pem",
            Step.StepInstanceInfo false,
            Step.StepConnect { SSHPrivateKey := "" } Callback.commHost Callback.sshConfig
              Callback.winrmConfig,
            Step.StepProvision,
            Step.StepTeardownInstance,
            Step.StepTeardownInstance,
            Step.StepCreateImage ]
    ∧ Step.StepCreateImage ∈ Builder.Run.steps "startup-script" cfgDryRun
    ∧ (Builder.Run.steps "startup-script" cfgDryRun).length = 10
    ∧ ∀ (key : String) (c : Config),
        (Builder.Run.steps key c).getLast? = some Step.StepCreateImage := by
  refine ⟨rfl, by decide, by decide, by decide, by decide, ?_⟩
  intro key c
  rw [steps_eq_referencePlan_append]
  simp

/-- C2 (code defect).  The teardown kind occurs twice in the list of every
configuration, and with dry-run off the image-capture kind occurs twice as
well; at the input `cfgImageScript` the kinds of the list are not free of
duplicates. -/
theorem C2_teardown_and_capture_repeated :
    (∀ (key : String) (c : Config),
        ((Builder.Run.steps key c).map Step.kind).count StepKind.TeardownInstance = 2)
    ∧ (∀ (key : String) (c : Config),
        ((Builder.Run.steps key c).map Step.kind).count StepKind.CreateImage
          = if c.PackerDryRun then 1 else 2)
    ∧ ((Builder.Run.steps "startup-script" cfgImageScript).map Step.kind).count
          StepKind.CreateImage = 2
    ∧ ¬ ((Builder.Run.steps "startup-script" cfgImageScript).map Step.kind).Nodup := by
  refine ⟨?_, ?_, by decide, by decide⟩
  · intro key c
    rw [steps_kinds]
    cases c.PackerDryRun <;> cases Builder.Run.startupScriptDeclared key c <;> decide
  · intro key c
    rw [steps_kinds]
    cases c.PackerDryRun <;> cases Builder.Run.startupScriptDeclared key c <;> decide

/-- C3 (code defect).  The list is never the reference plan: for every
configuration it is the reference plan followed by one more teardown step
and one more image-capture step; at the input `cfgImageScript` (dry-run off,
startup-script file set) it has twelve steps where the reference plan has
ten. -/
theorem C3_list_is_reference_plan_plus_two :
    (∀ (key : String) (c : Config),
        Builder.Run.steps key c
          = referencePlan key c ++ [Step.StepTeardownInstance, Step.StepCreateImage])
    ∧ (∀ (key : String) (c : Config), Builder.Run.steps key c ≠ referencePlan key c)
    ∧ (referencePlan "startup-script" cfgImageScript).map Step.kind
        = [StepKind.CheckExistingImage, StepKind.CreateSSHKey, StepKind.CreateInstance,
           StepKind.CreateWindowsPassword, StepKind.InstanceInfo, StepKind.Connect,
           StepKind.Provision, StepKind.TeardownInstance, StepKind.CreateImage,
           StepKind.WaitStartupScript]
    ∧ (Builder.Run.steps "startup-script" cfgImageScript).map Step.kind
        = [StepKind.CheckExistingImage, StepKind.CreateSSHKey, StepKind.CreateInstance,
           StepKind.CreateWindowsPassword, StepKind.InstanceInfo, StepKind.Connect,
           StepKind.Provision, StepKind.TeardownInstance, StepKind.CreateImage,
           StepKind.WaitStartupScript, StepKind.TeardownInstance, StepKind.CreateImage]
    ∧ (Builder.Run.steps "startup-script" cfgImageScript).length = 12 := by
  refine ⟨steps_eq_referencePlan_append, ?_, by decide, by decide, by decide⟩
  intro key c h
  have hlen := congrArg List.length h
  rw [steps_eq_referencePlan_append] at hlen
  simp at hlen

/-- C8.  For every configuration the list holds exactly one
wait-for-startup-script step when the metadata map has the startup-script
key or the startup-script file path is not empty, and none otherwise. -/
theorem C8_wait_step_once_iff_declared (key : String) (c : Config) :
    (Builder.Run.steps key c).count Step.StepWaitStartupScript
      = if ((c.Metadata.lookup key).isSome || c.StartupScriptFile != "") then 1 else 0 := by
  rw [steps_eq_referencePlan_append]
  unfold referencePlan Builder.Run.startupScriptDeclared Builder.Run.stepsLiteral
  cases c.PackerDryRun <;>
    cases ((c.Metadata.lookup key).isSome || c.StartupScriptFile != "") <;>
    simp [List.count_cons]

/-- C9.  For every configuration the first eight steps of the list are, in
order, existing-image check, SSH key creation, instance creation, Windows
password creation, instance info, communicator connect, provision and
instance teardown, with the field values of lines 52 to 77; changing the
dry-run flag, the metadata map, the startup-script file or the
startup-script key leaves these eight steps as they are. -/
theorem C9_first_eight_steps (key : String) (c : Config) :
    (Builder.Run.steps key c).take 8
      = [ Step.StepCheckExistingImage,
          Step.StepCreateSSHKey c.PackerConfig.PackerDebug
            ("gce_" ++ c.PackerConfig.PackerBuildName ++ ".pem") c.Comm.SSHPrivateKey,
          Step.StepCreateInstance c.PackerConfig.PackerDebug,
          Step.StepCreateWindowsPassword c.PackerConfig.PackerDebug
            ("gce_windows_" ++ c.PackerConfig.PackerBuildName ++ ".pem"),
          Step.StepInstanceInfo c.PackerConfig.PackerDebug,
          Step.StepConnect c.Comm Callback.commHost Callback.sshConfig Callback.winrmConfig,
          Step.StepProvision,
          Step.StepTeardownInstance ]
    ∧ ((Builder.Run.steps key c).take 8).map Step.kind
      = [StepKind.CheckExistingImage, StepKind.CreateSSHKey, StepKind.CreateInstance,
         StepKind.CreateWindowsPassword, StepKind.InstanceInfo, StepKind.Connect,
         StepKind.Provision, StepKind.TeardownInstance]
    ∧ ∀ (dryRun : Bool) (metadata : List (String × String)) (file key2 : String),
        (Builder.Run.steps key2
            { c with PackerDryRun := dryRun, Metadata := metadata,
                     StartupScriptFile := file }).take 8
          = (Builder.Run.steps key c).take 8 := by
  have h : ∀ (k : String) (d : Config),
      (Builder.Run.steps k d).take 8 = Builder.Run.stepsLiteral d := by
    intro k d
    rw [steps_eq_referencePlan_append]
    unfold referencePlan
    simp [List.take_append_eq_append_take, Builder.Run.stepsLiteral]
  refine ⟨by rw [h]; rfl, by rw [h]; rfl, ?_⟩
  intro dryRun metadata file key2
  rw [h, h]
  rfl

/-! ## Result extraction -/

/-- C4.  When driver construction succeeds and the runner leaves an "error"
entry holding the error value `e`, `Run` returns `(nil, e)`, whatever the
"image" entry is. -/
theorem C4_error_entry_is_returned (env : Env) (c : Config) (r : Option Runner)
    (ui : Ui) (hook : Hook) (cache : Cache) (e : Error)
    (hdriver : (env.NewDriverGCE ui c.ProjectId c.Account).2 = none)
    (herror : (Builder.Run.finalState env c ui hook).GetOk "error" = some (Value.error e)) :
    (Builder.Run env { config := some c, runner := r } ui hook cache).ret
      = Outcome.returned none (some e) := by
  unfold Builder.Run.finalState at herror
  simp only [Builder.Run, hdriver, herror]

/-- C4 at a concrete run: the runner leaves both an "error" and an "image"
entry, and the error comes back. -/
theorem C4_error_entry_is_returned_witness :
    (Builder.Run
        (envConst ({ id := 1 }, none)
          [("image", Value.image (some { name := "img" })),
           ("error", Value.error { msg := "boom" })])
        { config := some cfgImageScript, runner := none } { id := 0 } { id := 0 }
        { id := 0 }).ret
      = Outcome.returned none (some { msg := "boom" }) :=
  C4_error_entry_is_returned
    (envConst ({ id := 1 }, none)
      [("image", Value.image (some { name := "img" })),
       ("error", Value.error { msg := "boom" })])
    cfgImageScript none { id := 0 } { id := 0 } { id := 0 } { msg := "boom" }
    (by rfl) (by decide)

/-- C5.  When driver construction succeeds and the runner leaves no "error"
entry and an "image" entry holding the image pointer `p`, `Run` returns a
nil error and an artifact whose image is `p`, whose driver is the one
`NewDriverGCE` returned, and whose config is the builder's configuration. -/
theorem C5_image_entry_becomes_artifact (env : Env) (c : Config) (r : Option Runner)
    (ui : Ui) (hook : Hook) (cache : Cache) (p : Option Image)
    (hdriver : (env.NewDriverGCE ui c.ProjectId c.Account).2 = none)
    (herror : (Builder.Run.finalState env c ui hook).GetOk "error" = none)
    (himage : (Builder.Run.finalState env c ui hook).GetOk "image" = some (Value.image p)) :
    (Builder.Run env { config := some c, runner := r } ui hook cache).ret
      = Outcome.returned
          (some { image := p,
                  driver := (env.NewDriverGCE ui c.ProjectId c.Account).1,
                  config := c })
          none := by
  unfold Builder.Run.finalState at herror himage
  simp only [Builder.Run, hdriver, herror, himage, StateBag.Get, Option.getD_some]

/-- C5 at a concrete run: the runner leaves only an "image" entry. -/
theorem C5_image_entry_becomes_artifact_witness :
    (Builder.Run
        (envConst ({ id := 1 }, none) [("image", Value.image (some { name := "img" }))])
        { config := some cfgImageScript, runner := none } { id := 0 } { id := 0 }
        { id := 0 }).ret
      = Outcome.returned
          (some { image := some { name := "img" }, driver := { id := 1 },
                  config := cfgImageScript })
          none :=
  C5_image_entry_becomes_artifact
    (envConst ({ id := 1 }, none) [("image", Value.image (some { name := "img" }))])
    cfgImageScript none { id := 0 } { id := 0 } { id := 0 } (some { name := "img" })
    (by rfl) (by decide) (by decide)

/-- C6 as stated fails: with a driver that constructs and a runner that
leaves neither an "error" nor an "image" entry, `Run` logs a line and
returns `(nil, nil)`, so not exactly one of the two results is non-nil. -/
theorem C6_neither_entry_returns_nil_nil :
    (Builder.Run.finalState envIdle cfgImageScript { id := 0 } { id := 0 }).GetOk "error"
      = none
    ∧ (Builder.Run.finalState envIdle cfgImageScript { id := 0 } { id := 0 }).GetOk "image"
      = none
    ∧ (Builder.Run envIdle { config := some cfgImageScript, runner := none } { id := 0 }
        { id := 0 } { id := 0 }).ret = Outcome.returned none none
    ∧ (Builder.Run envIdle { config := some cfgImageScript, runner := none } { id := 0 }
        { id := 0 } { id := 0 }).ret.exactlyOneNonNil = false
    ∧ Event.Log "Failed to find image in state. Bug?"
        ∈ (Builder.Run envIdle { config := some cfgImageScript, runner := none } { id := 0 }
            { id := 0 } { id := 0 }).trace := by
  refine ⟨by decide, by decide, by decide, by decide, by decide⟩

/-- C6 amended.  When the entries `Run` reads back are well typed, `Run`
returns a pair `(artifact, err)` of which at most one is non-nil; both are
nil exactly when driver construction succeeded and the post-run state holds
neither an "error" nor an "image" entry, and in every other case exactly
one of them is non-nil. -/
theorem C6_at_most_one_non_nil (env : Env) (c : Config) (r : Option Runner)
    (ui : Ui) (hook : Hook) (cache : Cache)
    (htyped : (env.NewDriverGCE ui c.ProjectId c.Account).2 = none →
      entriesWellTyped (Builder.Run.finalState env c ui hook) = true) :
    ∃ (artifact : Option Artifact) (err : Option Error),
      (Builder.Run env { config := some c, runner := r } ui hook cache).ret
        = Outcome.returned artifact err
      ∧ ¬ (artifact ≠ none ∧ err ≠ none)
      ∧ ((artifact = none ∧ err = none) ↔
          ((env.NewDriverGCE ui c.ProjectId c.Account).2 = none
            ∧ (Builder.Run.finalState env c ui hook).GetOk "error" = none
            ∧ (Builder.Run.finalState env c ui hook).GetOk "image" = none))
      ∧ ((Builder.Run env { config := some c, runner := r } ui hook cache).ret.exactlyOneNonNil
            = true ↔
          ¬ ((env.NewDriverGCE ui c.ProjectId c.Account).2 = none
            ∧ (Builder.Run.finalState env c ui hook).GetOk "error" = none
            ∧ (Builder.Run.finalState env c ui hook).GetOk "image" = none)) := by
  cases hd : (env.NewDriverGCE ui c.ProjectId c.Account).2 with
  | some e0 =>
    refine ⟨none, some e0, ?_, ?_, ?_, ?_⟩
    · simp only [Builder.Run, hd]
    · simp
    · simp
    · simp [Builder.Run, hd, Outcome.exactlyOneNonNil]
  | none =>
    have ht := htyped hd
    unfold entriesWellTyped at ht
    unfold Builder.Run.finalState at ht ⊢
    cases he : (env.RunnerRun
        (env.NewRunner (Builder.Run.steps env.StartupScriptKey c) c.PackerConfig ui)
        (Builder.Run.seededState c (env.NewDriverGCE ui c.ProjectId c.Account).1
          hook ui)).GetOk "error" with
    | some v =>
      rw [he] at ht
      cases v <;> simp at ht
      rename_i e
      refine ⟨none, some e, ?_, ?_, ?_, ?_⟩
      · simp only [Builder.Run, hd, he]
      · simp
      · simp
      · simp [Builder.Run, hd, he, Outcome.exactlyOneNonNil]
    | none =>
      rw [he] at ht
      cases hi : (env.RunnerRun
          (env.NewRunner (Builder.Run.steps env.StartupScriptKey c) c.PackerConfig ui)
          (Builder.Run.seededState c (env.NewDriverGCE ui c.ProjectId c.Account).1
            hook ui)).GetOk "image" with
      | some v =>
        rw [hi] at ht
        cases v <;> simp at ht
        rename_i p
        refine ⟨some { image := p,
                       driver := (env.NewDriverGCE ui c.ProjectId c.Account).1,
                       config := c }, none, ?_, ?_, ?_, ?_⟩
        · simp only [Builder.Run, hd, he, hi, StateBag.Get, Option.getD_some]
        · simp
        · simp
        · simp [Builder.Run, hd, he, hi, StateBag.Get, Outcome.exactlyOneNonNil]
      | none =>
        refine ⟨none, none, ?_, ?_, ?_, ?_⟩
        · simp only [Builder.Run, hd, he, hi]
        · simp
        · simp
        · simp [Builder.Run, hd, he, hi, Outcome.exactlyOneNonNil]

/-- C6 amended, at a concrete run whose runner leaves a well-typed "image"
entry. -/
theorem C6_at_most_one_non_nil_witness :
    ∃ (artifact : Option Artifact) (err : Option Error),
      (Builder.Run
          (envConst ({ id := 1 }, none) [("image", Value.image (some { name := "img" }))])
          { config := some cfgDryRun, runner := none } { id := 0 } { id := 0 }
          { id := 0 }).ret = Outcome.returned artifact err
      ∧ ¬ (artifact ≠ none ∧ err ≠ none) := by
  obtain ⟨a, e, h1, h2, _⟩ :=
    C6_at_most_one_non_nil
      (envConst ({ id := 1 }, none) [("image", Value.image (some { name := "img" }))])
      cfgDryRun none { id := 0 } { id := 0 } { id := 0 } (fun _ => by decide)
  exact ⟨a, e, h1, h2⟩

/-! ## Driver construction failure and Cancel -/

/-- C7.  When `NewDriverGCE` returns the error `e`, `Run` returns `(nil, e)`,
leaves both builder fields as they were, and its only effect is the
`NewDriverGCE` call: no state bag is made or written, no runner is created
or run (so the step list, which leaves `Run` only as the argument of
`NewRunner`, is handed to nobody), and nothing is logged. -/
theorem C7_driver_failure_aborts (env : Env) (c : Config) (r : Option Runner)
    (ui : Ui) (hook : Hook) (cache : Cache) (e : Error)
    (hdriver : (env.NewDriverGCE ui c.ProjectId c.Account).2 = some e) :
    Builder.Run env { config := some c, runner := r } ui hook cache
      = { ret := Outcome.returned none (some e),
          builder := { config := some c, runner := r },
          trace := [Event.NewDriverGCE ui c.ProjectId c.Account] }
    ∧ Event.NewStateBag ∉ (Builder.Run env { config := some c, runner := r } ui hook
        cache).trace
    ∧ (∀ (k : String) (v : Value),
        Event.Put k v ∉ (Builder.Run env { config := some c, runner := r } ui hook
          cache).trace)
    ∧ (∀ (steps : List Step) (pc : PackerConfig) (u : Ui),
        Event.NewRunner steps pc u ∉ (Builder.Run env { config := some c, runner := r } ui
          hook cache).trace)
    ∧ (∀ (rn : Runner),
        Event.RunnerRun rn ∉ (Builder.Run env { config := some c, runner := r } ui hook
          cache).trace) := by
  have h : Builder.Run env { config := some c, runner := r } ui hook cache
      = { ret := Outcome.returned none (some e),
          builder := { config := some c, runner := r },
          trace := [Event.NewDriverGCE ui c.ProjectId c.Account] } := by
    simp only [Builder.Run, hdriver]
  rw [h]
  simp

/-- C7 at a concrete run: the driver constructor fails on a builder that
already holds a runner from an earlier run. -/
theorem C7_driver_failure_aborts_witness :
    Builder.Run (envConst ({ id := 0 }, some { msg := "bad credentials" }) [])
        { config := some cfgImageScript, runner := some { id := 3 } } { id := 0 } { id := 0 }
        { id := 0 }
      = { ret := Outcome.returned none (some { msg := "bad credentials" }),
          builder := { config := some cfgImageScript, runner := some { id := 3 } },
          trace := [Event.NewDriverGCE { id := 0 } cfgImageScript.ProjectId
                      cfgImageScript.Account] } :=
  (C7_driver_failure_aborts (envConst ({ id := 0 }, some { msg := "bad credentials" }) [])
    cfgImageScript (some { id := 3 }) { id := 0 } { id := 0 } { id := 0 }
    { msg := "bad credentials" } (by rfl)).1

/-- C10.  `Cancel` on a builder holding the runner `rn` logs one line and
calls `rn.Cancel()`; on a builder with no runner it does nothing; a runner
`Cancel` call is made exactly when the builder holds a runner; and in both
cases the builder fields are as before.  The runner field is set by `Run`
exactly when driver construction succeeds, to the runner `NewRunner`
returned, and is kept as it was when driver construction fails. -/
theorem C10_cancel_forwards_iff_runner (b : Builder) :
    (Builder.Cancel b).1 = b
    ∧ (Builder.Cancel b).2
        = (match b.runner with
           | some rn => [Event.Log "Cancelling the step runner...", Event.RunnerCancel rn]
           | none => [])
    ∧ (∀ (rn : Runner), Event.RunnerCancel rn ∈ (Builder.Cancel b).2 ↔ b.runner = some rn)
    ∧ ((∃ (rn : Runner), Event.RunnerCancel rn ∈ (Builder.Cancel b).2) ↔ b.runner ≠ none)
    ∧ (b.runner = none ↔ (Builder.Cancel b).2 = [])
    ∧ ∀ (env : Env) (c : Config) (ui : Ui) (hook : Hook) (cache : Cache),
        (Builder.Run env { config := some c, runner := b.runner } ui hook cache).builder.runner
          = (match (env.NewDriverGCE ui c.ProjectId c.Account).2 with
             | none =>
               some (env.NewRunner (Builder.Run.steps env.StartupScriptKey c)
                      c.PackerConfig ui)
             | some _ => b.runner) := by
  obtain ⟨cfg, rn⟩ := b
  refine ⟨?_, ?_, ?_, ?_, ?_, ?_⟩
  · cases rn <;> rfl
  · cases rn <;> rfl
  · intro rn2
    cases rn <;> simp [Builder.Cancel, eq_comm]
  · cases rn <;> simp [Builder.Cancel]
  · cases rn <;> simp [Builder.Cancel]
  · intro env c ui hook cache
    cases hd : (env.NewDriverGCE ui c.ProjectId c.Account).2 with
    | some e0 => simp only [Builder.Run, hd]
    | none =>
      simp only [Builder.Run, hd]
      split
      · split <;> rfl
      · split
        · rfl
        · split <;> rfl

end Googlecompute
